import Mathlib

/-!
# freetype-direct-gl: coverage-accumulation text rasteriser

A shallow embedding of `src/text/text_buffer.cxx` (the pen/layout driver
`AddText` / `AddChar`, `Init`, the jitter table and the encode fragment
shader) and of the decode fragment shader of `src/utils/program_render.cxx`.

Conventions of the embedding

* C++ `float` / GLSL `float` quantities are idealised as exact rationals `ℚ`;
  every statement below is a statement of exact arithmetic.
* `viewport_s`, `pen_s`, `markup_s`, the font and the glyph are declared in
  headers that are not part of the sources at hand; they are taken as records
  holding exactly the members the code reads.
* `wchar_t` is a natural number (its code unit), `std::wstring` a list of them.
* Calls made on the GL driver, on `shader_load` and on the font are recorded,
  in program order, as a list of `GLCall`.
-/

namespace ftdgl

/-! ## Vectors and matrices (glm) -/

/-- The type `glm::vec2`. -/
structure vec2 where
  x : ℚ
  y : ℚ
deriving DecidableEq

/-- The type `glm::vec3` (also GLSL `vec3`). -/
structure vec3 where
  x : ℚ
  y : ℚ
  z : ℚ
deriving DecidableEq

/-- The type `glm::vec4` (also GLSL `vec4`). -/
structure vec4 where
  x : ℚ
  y : ℚ
  z : ℚ
  w : ℚ
deriving DecidableEq

/-- The type `glm::mat4`, indexed row then column. -/
abbrev mat4 := Matrix (Fin 4) (Fin 4) ℚ

namespace glm

/-- The matrix `glm::translate(glm::mat4(1.0), glm::vec3(x, y, z))`. -/
def translate (x y z : ℚ) : mat4 :=
  !![1, 0, 0, x;
     0, 1, 0, y;
     0, 0, 1, z;
     0, 0, 0, 1]

/-- The matrix `glm::scale(glm::mat4(1.0), glm::vec3(x, y, z))`. -/
def scale (x y z : ℚ) : mat4 :=
  !![x, 0, 0, 0;
     0, y, 0, 0;
     0, 0, z, 0;
     0, 0, 0, 1]

end glm

/-! ## Decode fragment shader (`program_render.cxx`, `frag_source`) -/

namespace glsl

/-- GLSL `mod(x, y) = x - y * floor(x / y)`. -/
def mod (x y : ℚ) : ℚ := x - y * (⌊x / y⌋ : ℤ)

end glsl

/-- One scalar lane of `value = texture2D(..) * 255.0`; `texel` is the
normalised channel read from the texture (the stored byte over 255). -/
def value (texel : ℚ) : ℚ := texel * 255

/-- One scalar lane of `lower = mod(value, 16.0)`. -/
def lower (texel : ℚ) : ℚ := glsl.mod (value texel) 16

/-- One scalar lane of `upper = (value - lower) / 16.0`. -/
def upper (texel : ℚ) : ℚ := (value texel - lower texel) / 16

/-- One scalar lane of `alpha = min(abs(upper - lower), 2.0)`. -/
def alpha (texel : ℚ) : ℚ := min |upper texel - lower texel| 2

/-- The decode shader's `main`: `texR` is the texel at `_coord2`, `texL` the
texel one step to the right (`_coord2.x + dFdx(_coord2.x)`), of which only the
`y` and `z` channels are read. -/
def decode_main (texR texL : vec3) (first_round : ℚ) (_color : vec4) : vec4 :=
  let alphaL : vec2 := ⟨alpha texL.y, alpha texL.z⟩
  let alphaR : vec3 := ⟨alpha texR.x, alpha texR.y, alpha texR.z⟩
  let rgba : vec4 :=
    ⟨(alphaR.x + alphaR.y + alphaR.z) / 6,
     (alphaL.y + alphaR.x + alphaR.y) / 6,
     (alphaL.x + alphaL.y + alphaR.x) / 6,
     0⟩
  if first_round = 1 then ⟨1 - rgba.x, 1 - rgba.y, 1 - rgba.z, 1 - rgba.w⟩
  else ⟨_color.x * rgba.x, _color.y * rgba.y, _color.z * rgba.z, _color.w * rgba.w⟩

/-! ## Encode fragment shader (`text_buffer.cxx`, `frag_source`) and blending -/

/-- The factor `gl_FrontFacing ? 16.0 / 255.0 : 1.0 / 255.0`. -/
def faceWeight (frontFacing : Bool) : ℚ := if frontFacing then 16 / 255 else 1 / 255

/-- The encode shader's `main`: `none` is `discard`, otherwise the fragment
colour `color * (gl_FrontFacing ? 16.0 / 255.0 : 1.0 / 255.0)`. -/
def encode_main (color : vec4) (_coord2 : vec2) (frontFacing : Bool) : Option vec4 :=
  if _coord2.x * _coord2.x - _coord2.y > 0 then none
  else some ⟨color.x * faceWeight frontFacing, color.y * faceWeight frontFacing,
             color.z * faceWeight frontFacing, color.w * faceWeight frontFacing⟩

/-- One channel of `glBlendFunc(GL_ONE, GL_ONE)` into the `GL_UNSIGNED_BYTE`
colour attachment: source plus destination, the stored channel being limited
to the normalised range `0..1` (bytes `0..255`). -/
def blend_ONE_ONE (dst src : ℚ) : ℚ := max 0 (min (src + dst) 1)

/-- A channel after blending the fragments `srcs`, in order, onto `dst`. -/
def accumulate (dst : ℚ) : List ℚ → ℚ
  | [] => dst
  | src :: rest => accumulate (blend_ONE_ONE dst src) rest

/-- The channel of a cleared target after `f` front-facing and then `b`
back-facing fragments of unit colour have been blended into it. -/
def channelAfter (f b : ℕ) : ℚ :=
  accumulate 0 (List.replicate f (1 * faceWeight true) ++ List.replicate b (1 * faceWeight false))

/-! ## The jitter table -/

/-- The table `JITTER_PATTERN`. -/
def JITTER_PATTERN : List vec2 :=
  [⟨-1 / 12, -5 / 12⟩,
   ⟨ 1 / 12,  1 / 12⟩,
   ⟨ 3 / 12, -1 / 12⟩,
   ⟨ 5 / 12,  5 / 12⟩,
   ⟨ 7 / 12, -3 / 12⟩,
   ⟨ 9 / 12,  3 / 12⟩]

/-! ## Data model of the pen/layout driver -/

/-- The cursor `pen_s`. -/
structure pen_s where
  x : ℚ
  y : ℚ
deriving DecidableEq

/-- The record `viewport::viewport_s`: the members read by `AddChar`. -/
structure viewport_s where
  pixel_width : ℚ
  pixel_height : ℚ
  window_width : ℚ
  window_height : ℚ
  dpi : ℚ
  dpi_height : ℚ

/-- A glyph mesh handle: `GetSize()`, `GetAddr()`, `GetAdvanceX()`. -/
structure Glyph where
  GetSize : ℕ
  GetAddr : ℕ
  GetAdvanceX : ℚ

/-- The font interface used by `AddChar`; `LoadGlyph` answers `none` for a
null glyph pointer. -/
structure Font where
  GetAscender : ℚ
  GetDescender : ℚ
  GetPtSize : ℚ
  LoadGlyph : ℕ → Option Glyph

/-- The record `markup_s`: the member read by `AddChar`. -/
structure markup_s where
  font : Font

/-- Calls made on the GL driver, on `shader_load` and on the font, with the
arguments that matter downstream. -/
inductive GLCall where
  | GenFramebuffers
  | BindFramebuffer (fb : ℕ)
  | GenTextures
  | BindTexture (tex : ℕ)
  | TexImage2D (width height : ℕ)
  | TexParameteri
  | GenRenderbuffers
  | BindRenderbuffer
  | RenderbufferStorage (width height : ℕ)
  | FramebufferRenderbuffer
  | FramebufferTextureEXT (tex : ℕ)
  | DrawBuffers
  | CheckFramebufferStatus (complete : Bool)
  | printf_frame_buffer_status_error
  | ClearColor (r g b a : ℚ)
  | Clear
  | Enable_BLEND
  | BlendFunc_ONE_ONE
  | shader_load
  | LoadGlyph (ch : ℕ) (present : Bool)
  | GenBuffers
  | BindBuffer
  | BufferData (size addr : ℕ)
  | UseProgram (bound : Bool)
  | GetAttribLocation
  | EnableVertexAttribArray
  | VertexAttribPointer
  | GetUniformLocation
  | UniformMatrix4fv (m : mat4)
  | Uniform4fv (c : vec4)
  | DrawArrays (count : ℕ)
  | DisableVertexAttribArray

/-- Whether a call is a draw submission (`glDrawArrays`). -/
def isDraw : GLCall → Bool
  | GLCall.DrawArrays _ => true
  | _ => false

/-- Whether a call is `glClear`. -/
def isClear : GLCall → Bool
  | GLCall.Clear => true
  | _ => false

/-- Number of draw submissions in a trace. -/
def drawCount (calls : List GLCall) : ℕ := (calls.filter isDraw).length

/-- Number of `glClear` calls in a trace. -/
def clearCount (calls : List GLCall) : ℕ := (calls.filter isClear).length

/-- The `matrix4` uniforms set in a trace, in order. -/
def uniformMatrices : List GLCall → List mat4
  | [] => []
  | GLCall.UniformMatrix4fv m :: rest => m :: uniformMatrices rest
  | _ :: rest => uniformMatrices rest

/-- The members of `TextBufferImpl`. -/
structure TextBufferImpl where
  m_RenderedTexture : ℕ
  m_FrameBuffer : ℕ
  m_Viewport : viewport_s

/-- Outcome of `AddChar` / `AddText`: the returned `bool`, the pen as left in
the caller's variable, and the calls issued. -/
structure CharResult where
  ok : Bool
  pen : pen_s
  calls : List GLCall

/-! ## `TextBufferImpl::Init` -/

/-- The method `TextBufferImpl::Init`, run by the constructor. The names `fb`
and `tex` handed out by the driver and the answer of
`glCheckFramebufferStatus` (`complete`) are inputs. -/
def Init (viewport : viewport_s) (fb tex : ℕ) (complete : Bool) :
    TextBufferImpl × List GLCall :=
  let setup : List GLCall :=
    [GLCall.GenFramebuffers, GLCall.BindFramebuffer fb,
     GLCall.GenTextures, GLCall.BindTexture tex,
     GLCall.TexImage2D (500 * 2) (220 * 2),
     GLCall.TexParameteri, GLCall.TexParameteri, GLCall.TexParameteri, GLCall.TexParameteri,
     GLCall.GenRenderbuffers, GLCall.BindRenderbuffer,
     GLCall.RenderbufferStorage (500 * 2) (220 * 2),
     GLCall.FramebufferRenderbuffer, GLCall.FramebufferTextureEXT tex,
     GLCall.DrawBuffers, GLCall.CheckFramebufferStatus complete]
  if complete then
    (⟨tex, fb, viewport⟩,
      setup ++ [GLCall.BindFramebuffer fb, GLCall.ClearColor 0 0 0 0, GLCall.Clear,
                GLCall.BindFramebuffer 0])
  else
    (⟨tex, fb, viewport⟩, setup ++ [GLCall.printf_frame_buffer_status_error])

/-! ## `TextBufferImpl::AddChar` -/

/-- The local `pt_width = pixel_width * 72 / dpi`. -/
def pt_width (vp : viewport_s) : ℚ := vp.pixel_width * 72 / vp.dpi

/-- The local `pt_height = pixel_height * 72 / dpi_height`. -/
def pt_height (vp : viewport_s) : ℚ := vp.pixel_height * 72 / vp.dpi_height

/-- The local `translate`. -/
def translate : mat4 := glm.translate (-1) (-1) 0

/-- The local `translate1`. -/
def translate1 (markup : markup_s) : mat4 := glm.translate 0 markup.font.GetDescender 0

/-- The local `translate2`. -/
def translate2 (vp : viewport_s) (pen : pen_s) : mat4 :=
  glm.translate (2 * pen.x / vp.window_width) (2 * pen.y / vp.window_height) 0

/-- The local `scale`. -/
def scale (vp : viewport_s) (markup : markup_s) : mat4 :=
  glm.scale (markup.font.GetPtSize / pt_width vp) (markup.font.GetPtSize / pt_height vp) 0

/-- The local `transform = translate2 * translate * scale * translate1`. -/
def transform (vp : viewport_s) (pen : pen_s) (markup : markup_s) : mat4 :=
  translate2 vp pen * translate * scale vp markup * translate1 markup

/-- The local `translate3` of the sample whose jitter offset is `j`. -/
def translate3 (vp : viewport_s) (j : vec2) : mat4 :=
  glm.translate (j.x * 72 / vp.dpi / pt_width vp) (j.y * 72 / vp.dpi_height / pt_height vp) 0

/-- The local `transform_x = translate3 * transform`. -/
def transform_x (vp : viewport_s) (pen : pen_s) (markup : markup_s) (j : vec2) : mat4 :=
  translate3 vp j * transform vp pen markup

/-- The colour `c` after the `if (i % 2 == 0)` statement of iteration `i`,
given its value `c` before. -/
def sampleColor (c : vec4) (i : ℕ) : vec4 :=
  if i % 2 = 0 then
    ⟨if i = 0 then 1 else 0, if i = 2 then 1 else 0, if i = 4 then 1 else 0, 0⟩
  else c

/-- One iteration of the jitter loop: the state is the colour `c` carried
across iterations and the calls issued so far. -/
def jitterIteration (vp : viewport_s) (pen : pen_s) (markup : markup_s) (glyph : Glyph)
    (state : vec4 × List GLCall) (ij : ℕ × vec2) : vec4 × List GLCall :=
  let c := sampleColor state.1 ij.1
  (c, state.2 ++ [GLCall.GetUniformLocation,
                  GLCall.UniformMatrix4fv (transform_x vp pen markup ij.2),
                  GLCall.Uniform4fv c,
                  GLCall.DrawArrays (glyph.GetSize / 4 / 4)])

/-- The jitter loop `for (i = 0; i < sizeof(JITTER_PATTERN) / sizeof(glm::vec2); i++)`,
started with `c = (0, 0, 0, 0)`. -/
def jitterLoop (vp : viewport_s) (pen : pen_s) (markup : markup_s) (glyph : Glyph) :
    vec4 × List GLCall :=
  JITTER_PATTERN.enum.foldl (jitterIteration vp pen markup glyph) (⟨0, 0, 0, 0⟩, [])

/-- The method `TextBufferImpl::AddChar`; blank is code 32, newline code 10. -/
def AddChar (tb : TextBufferImpl) (pen : pen_s) (markup : markup_s) (ch : ℕ) : CharResult :=
  if ch = 32 then ⟨true, pen, []⟩
  else if ch = 10 then
    ⟨true,
     ⟨0, pen.y - (markup.font.GetAscender - markup.font.GetDescender)
                  * tb.m_Viewport.window_height * markup.font.GetPtSize
                  / pt_height tb.m_Viewport⟩,
     []⟩
  else
    match markup.font.LoadGlyph ch with
    | none => ⟨true, pen, [GLCall.shader_load, GLCall.LoadGlyph ch false]⟩
    | some glyph =>
      ⟨true, ⟨pen.x + glyph.GetAdvanceX, pen.y⟩,
       [GLCall.shader_load, GLCall.LoadGlyph ch true,
        GLCall.GenBuffers, GLCall.BindBuffer,
        GLCall.BufferData glyph.GetSize glyph.GetAddr,
        GLCall.UseProgram true,
        GLCall.GetAttribLocation, GLCall.EnableVertexAttribArray,
        GLCall.BindBuffer, GLCall.VertexAttribPointer,
        GLCall.GetUniformLocation]
       ++ (jitterLoop tb.m_Viewport pen markup glyph).2
       ++ [GLCall.DisableVertexAttribArray, GLCall.UseProgram false]⟩

/-! ## `TextBufferImpl::AddText` -/

/-- The `for` loop of `AddText` over the characters still to come, for a
per-character step `addChar`. On a `false` answer the loop is left at once;
the pen is the caller's variable, so it is whatever the step left in it. -/
def AddTextLoop (addChar : pen_s → ℕ → CharResult) : pen_s → List ℕ → CharResult
  | pen, [] => ⟨true, pen, []⟩
  | pen, ch :: rest =>
    let r := addChar pen ch
    if r.ok then
      let r2 := AddTextLoop addChar r.pen rest
      ⟨r2.ok, r2.pen, r.calls ++ r2.calls⟩
    else ⟨false, r.pen, r.calls⟩

/-- The body of `AddText` for a per-character step `addChar`: bind the
framebuffer, enable additive blending, run the loop, unbind. -/
def AddTextWith (addChar : pen_s → ℕ → CharResult) (tb : TextBufferImpl)
    (pen : pen_s) (text : List ℕ) : CharResult :=
  let r := AddTextLoop addChar pen text
  ⟨r.ok, r.pen,
   [GLCall.BindFramebuffer tb.m_FrameBuffer, GLCall.Enable_BLEND, GLCall.BlendFunc_ONE_ONE]
   ++ r.calls ++ [GLCall.BindFramebuffer 0]⟩

/-- The method `TextBufferImpl::AddText`. -/
def AddText (tb : TextBufferImpl) (pen : pen_s) (markup : markup_s) (text : List ℕ) :
    CharResult :=
  AddTextWith (fun p ch => AddChar tb p markup ch) tb pen text

/-! ## Specification-side notions used to state the contracts -/

/-- The pen after the characters `cs` have each been handed to `addChar`, in
order, each call starting from the pen the previous one left. -/
def penAfter (addChar : pen_s → ℕ → CharResult) (pen : pen_s) (cs : List ℕ) : pen_s :=
  cs.foldl (fun p ch => (addChar p ch).pen) pen

/-- The outcome of the `AddChar` call made for the character at index `k` when
all earlier characters have been processed in order. -/
def callAt (addChar : pen_s → ℕ → CharResult) (pen : pen_s) (text : List ℕ) (k : ℕ) :
    CharResult :=
  addChar (penAfter addChar pen (text.take k)) (text.getD k 0)

/-- Composition `translate(pen) ∘ baseTranslate(-1,-1) ∘ scale ∘
translate(d) ∘ jitterTranslate(pattern[i])` with the jitter translation
innermost; `d` is the vertical offset of the descender translation. -/
def jitterInnermost (vp : viewport_s) (pen : pen_s) (markup : markup_s) (d : ℚ) (j : vec2) :
    mat4 :=
  translate2 vp pen * translate * scale vp markup * glm.translate 0 d 0 * translate3 vp j

/-- The same five factors as in `jitterInnermost`, composed in the opposite
order: the pen translation applied first, the jitter translation last. -/
def penInnermost (vp : viewport_s) (pen : pen_s) (markup : markup_s) (d : ℚ) (j : vec2) :
    mat4 :=
  translate3 vp j * glm.translate 0 d 0 * scale vp markup * translate * translate2 vp pen

/-- The vertex shader's `gl_Position = matrix4 * vec4(position4.xy, 0.0, 1.0)`. -/
def gl_Position (matrix4 : mat4) (x y : ℚ) : Fin 4 → ℚ :=
  Matrix.mulVec matrix4 ![x, y, 0, 1]

/-- The colour uniform in effect at each draw submission of a trace, in order;
`cur` is the value of the uniform before the trace. -/
def drawColors : vec4 → List GLCall → List vec4
  | _, [] => []
  | _, GLCall.Uniform4fv c :: rest => drawColors c rest
  | cur, GLCall.DrawArrays _ :: rest => cur :: drawColors cur rest
  | cur, _ :: rest => drawColors cur rest

/-- The unit colour of channel `k` (`0` is R, `1` is G, `2` is B), alpha `0`. -/
def unitChannel (k : ℕ) : vec4 :=
  ⟨if k = 0 then 1 else 0, if k = 1 then 1 else 0, if k = 2 then 1 else 0, 0⟩

/-! ## Concrete inputs used in witnesses and counterexamples -/

/-- A 72 by 72 pixel viewport at 72 dpi, window 100 by 100. -/
def demoViewport : viewport_s := ⟨72, 72, 100, 100, 72, 72⟩

/-- A glyph of 96 bytes (six vertices) with advance 7. -/
def demoGlyph : Glyph := ⟨96, 0, 7⟩

/-- A 36 pt font, ascender 3, descender -1, with a glyph for every code but 0. -/
def demoFont : Font := ⟨3, -1, 36, fun ch => if ch = 0 then none else some demoGlyph⟩

/-- Markup selecting `demoFont`. -/
def demoMarkup : markup_s := ⟨demoFont⟩

theorem value_byte (n : ℚ) : value (n / 255) = n := by
  unfold value
  field_simp

theorem floor_nibbles (f b : ℕ) (hb : b < 16) : ⌊((16 * f + b : ℚ)) / 16⌋ = (f : ℤ) := by
  rw [Int.floor_eq_iff]
  have hb' : (b : ℚ) < 16 := by exact_mod_cast hb
  have hb0 : (0 : ℚ) ≤ b := by positivity
  constructor
  · push_cast
    rw [le_div_iff₀ (by norm_num)]
    linarith
  · push_cast
    rw [div_lt_iff₀ (by norm_num)]
    linarith

theorem lower_nibbles (f b : ℕ) (hb : b < 16) : lower ((16 * f + b : ℚ) / 255) = b := by
  unfold lower glsl.mod
  rw [value_byte, floor_nibbles f b hb]
  push_cast
  ring

theorem upper_nibbles (f b : ℕ) (hb : b < 16) : upper ((16 * f + b : ℚ) / 255) = f := by
  unfold upper
  rw [lower_nibbles f b hb, value_byte]
  field_simp

theorem alpha_nibbles (f b : ℕ) (hb : b < 16) :
    alpha ((16 * f + b : ℚ) / 255) = min |(f : ℚ) - b| 2 := by
  unfold alpha
  rw [lower_nibbles f b hb, upper_nibbles f b hb]

theorem blend_bytes (k w : ℕ) :
    blend_ONE_ONE ((k : ℚ) / 255) ((w : ℚ) / 255) = ((min (k + w) 255 : ℕ) : ℚ) / 255 := by
  unfold blend_ONE_ONE
  have hk : (0 : ℚ) ≤ k := by positivity
  have hw : (0 : ℚ) ≤ w := by positivity
  rcases le_total (k + w) 255 with h | h
  · have hq : (w : ℚ) / 255 + (k : ℚ) / 255 ≤ 1 := by
      rw [← add_div, div_le_one (by norm_num)]
      exact_mod_cast (by omega : w + k ≤ 255)
    rw [min_eq_left hq, max_eq_right (by positivity), Nat.min_eq_left h]
    push_cast
    ring
  · have hq : (1 : ℚ) ≤ (w : ℚ) / 255 + (k : ℚ) / 255 := by
      rw [← add_div, one_le_div (by norm_num)]
      exact_mod_cast (by omega : 255 ≤ w + k)
    rw [min_eq_right hq, max_eq_right (by norm_num), Nat.min_eq_right h]
    norm_num

theorem accumulate_bytes (w : ℕ) (n : ℕ) : ∀ k : ℕ, k ≤ 255 →
    accumulate ((k : ℚ) / 255) (List.replicate n ((w : ℚ) / 255))
      = ((min (k + w * n) 255 : ℕ) : ℚ) / 255 := by
  induction n with
  | zero =>
    intro k hk
    simp [accumulate, Nat.min_eq_left hk]
  | succ n ih =>
    intro k hk
    rw [List.replicate_succ, accumulate, blend_bytes, ih _ (Nat.min_le_right _ _)]
    congr 2
    rw [Nat.mul_succ]
    omega

theorem accumulate_append (dst : ℚ) (xs ys : List ℚ) :
    accumulate dst (xs ++ ys) = accumulate (accumulate dst xs) ys := by
  induction xs generalizing dst with
  | nil => rfl
  | cons x xs ih => simp [accumulate, ih]

theorem channelAfter_bytes (f b : ℕ) :
    channelAfter f b = ((min (min (16 * f) 255 + b) 255 : ℕ) : ℚ) / 255 := by
  unfold channelAfter faceWeight
  rw [accumulate_append]
  have h16 : (1 : ℚ) * (if true = true then 16 / 255 else 1 / 255) = ((16 : ℕ) : ℚ) / 255 := by
    norm_num
  have h1 : (1 : ℚ) * (if false = true then 16 / 255 else 1 / 255) = ((1 : ℕ) : ℚ) / 255 := by
    norm_num
  have h0 : (0 : ℚ) = ((0 : ℕ) : ℚ) / 255 := by norm_num
  rw [h16, h1, h0, accumulate_bytes 16 f 0 (by omega),
    accumulate_bytes 1 b _ (Nat.min_le_right _ _)]
  congr 2
  omega


/-! ## Claims on the shader arithmetic and the jitter table -/

/-- C1 (pack/unpack round trip): for front and back counts `f, b ≤ 15`, a
cleared channel into which `f` front-facing and `b` back-facing unit fragments
were blended holds `16 * f + b` (in 1/255 units), and a channel holding that
value decodes to `lower = b`, `upper = f` and `alpha = min (|f - b|) 2`. -/
theorem C1_pack_unpack_roundtrip (f b : ℕ) (hf : f ≤ 15) (hb : b ≤ 15) :
    channelAfter f b = (16 * f + b : ℚ) / 255 ∧
    lower ((16 * f + b : ℚ) / 255) = b ∧
    upper ((16 * f + b : ℚ) / 255) = f ∧
    alpha ((16 * f + b : ℚ) / 255) = min |(f : ℚ) - b| 2 := by
  have hb' : b < 16 := by omega
  refine ⟨?_, lower_nibbles f b hb', upper_nibbles f b hb', alpha_nibbles f b hb'⟩
  rw [channelAfter_bytes]
  have : min (min (16 * f) 255 + b) 255 = 16 * f + b := by omega
  rw [this]
  push_cast
  ring

/-- C1 at the four combinations `(0,0), (1,0), (0,1), (1,1)` of front and back
counts: the decoded alpha is `0, 1, 1, 0`. -/
theorem C1_pack_unpack_roundtrip_witness :
    alpha (channelAfter 0 0) = 0 ∧ alpha (channelAfter 1 0) = 1 ∧
    alpha (channelAfter 0 1) = 1 ∧ alpha (channelAfter 1 1) = 0 := by
  have h00 := C1_pack_unpack_roundtrip 0 0 (by decide) (by decide)
  have h10 := C1_pack_unpack_roundtrip 1 0 (by decide) (by decide)
  have h01 := C1_pack_unpack_roundtrip 0 1 (by decide) (by decide)
  have h11 := C1_pack_unpack_roundtrip 1 1 (by decide) (by decide)
  refine ⟨?_, ?_, ?_, ?_⟩
  · rw [h00.1, h00.2.2.2]; norm_num
  · rw [h10.1, h10.2.2.2]; norm_num
  · rw [h01.1, h01.2.2.2]; norm_num
  · rw [h11.1, h11.2.2.2]; norm_num

/-- C2 refuted as stated: sixteen overlapping front-face contributions pin the
channel at 255, which decodes to `lower = upper = 15` and alpha `0`, not `2`. -/
theorem C2_saturation_counterexample :
    3 ≤ 16 ∧ channelAfter 16 0 = 1 ∧ alpha (channelAfter 16 0) = 0 ∧
    alpha (channelAfter 16 0) ≠ 2 := by
  have hc : channelAfter 16 0 = (16 * ((15 : ℕ) : ℚ) + ((15 : ℕ) : ℚ)) / 255 := by
    rw [channelAfter_bytes]; norm_num
  have ha : alpha (channelAfter 16 0) = 0 := by
    rw [hc, alpha_nibbles 15 15 (by decide)]; norm_num
  refine ⟨by decide, ?_, ha, ?_⟩
  · rw [hc]; norm_num
  · rw [ha]; norm_num

/-- C2 (amended): for `3 ≤ n ≤ 15` overlapping front-face contributions and no
back-face contribution, the channel holds `16 * n` (in 1/255 units) and the
decoded alpha is exactly `2`. -/
theorem C2_saturation_amended (n : ℕ) (hn : 3 ≤ n) (h15 : n ≤ 15) :
    channelAfter n 0 = (16 * n : ℚ) / 255 ∧ alpha (channelAfter n 0) = 2 := by
  have hc : channelAfter n 0 = (16 * (n : ℚ) + ((0 : ℕ) : ℚ)) / 255 := by
    rw [channelAfter_bytes]
    have : min (min (16 * n) 255 + 0) 255 = 16 * n := by omega
    rw [this]; push_cast; ring
  have hn' : (3 : ℚ) ≤ n := by exact_mod_cast hn
  refine ⟨by rw [hc]; push_cast; ring, ?_⟩
  rw [hc, alpha_nibbles n 0 (by decide)]
  have habs : |(n : ℚ) - ((0 : ℕ) : ℚ)| = n := by
    rw [Nat.cast_zero, sub_zero, abs_of_nonneg (by positivity)]
  rw [habs, min_eq_right (by linarith)]

/-- C2 (amended) at `n = 3` and at `n = 15`: the decoded alpha is `2`. -/
theorem C2_saturation_amended_witness :
    (3 ≤ 3 ∧ 3 ≤ 15) ∧ alpha (channelAfter 3 0) = 2 ∧ alpha (channelAfter 15 0) = 2 :=
  ⟨⟨by decide, by decide⟩, (C2_saturation_amended 3 (by decide) (by decide)).2,
    (C2_saturation_amended 15 (by decide) (by decide)).2⟩

/-- C8 refuted as stated: the six `x` offsets of `JITTER_PATTERN` sum to `2`
(mean `1/3`), not to `0`. -/
theorem C8_jitter_symmetry_counterexample :
    (JITTER_PATTERN.map vec2.x).sum = 2 ∧ (JITTER_PATTERN.map vec2.x).sum ≠ 0 := by
  refine ⟨by norm_num [JITTER_PATTERN], by norm_num [JITTER_PATTERN]⟩

/-- C8 (amended): the six `y` offsets of `JITTER_PATTERN` sum to `0`, so their
mean is `0`; the six `x` offsets sum to `2`, so their mean is `1/3`: the three
consecutive pairs of `x` offsets average to `0`, `1/3` and `2/3`, the offsets
the texture format is documented to store. -/
theorem C8_jitter_symmetry_amended :
    JITTER_PATTERN.length = 6 ∧
    (JITTER_PATTERN.map vec2.y).sum = 0 ∧
    (JITTER_PATTERN.map vec2.y).sum / 6 = 0 ∧
    (JITTER_PATTERN.map vec2.x).sum = 2 ∧
    (JITTER_PATTERN.map vec2.x).sum / 6 = 1 / 3 ∧
    ((JITTER_PATTERN.map vec2.x).getD 0 0 + (JITTER_PATTERN.map vec2.x).getD 1 0) / 2 = 0 ∧
    ((JITTER_PATTERN.map vec2.x).getD 2 0 + (JITTER_PATTERN.map vec2.x).getD 3 0) / 2 = 1 / 3 ∧
    ((JITTER_PATTERN.map vec2.x).getD 4 0 + (JITTER_PATTERN.map vec2.x).getD 5 0) / 2 = 2 / 3 := by
  refine ⟨rfl, ?_, ?_, ?_, ?_, ?_, ?_, ?_⟩ <;> norm_num [JITTER_PATTERN]

/-! ## The loop of `AddText`: helper lemmas -/

theorem callAt_zero (f : pen_s → ℕ → CharResult) (pen : pen_s) (c : ℕ) (cs : List ℕ) :
    callAt f pen (c :: cs) 0 = f pen c := by
  simp [callAt, penAfter]

theorem callAt_succ (f : pen_s → ℕ → CharResult) (pen : pen_s) (c : ℕ) (cs : List ℕ) (k : ℕ) :
    callAt f pen (c :: cs) (k + 1) = callAt f (f pen c).pen cs k := by
  simp [callAt, penAfter]

theorem AddTextLoop_all_ok (f : pen_s → ℕ → CharResult) :
    ∀ (text : List ℕ) (pen : pen_s),
      (∀ k, k < text.length → (callAt f pen text k).ok = true) →
      AddTextLoop f pen text =
        ⟨true, penAfter f pen text,
          (List.range text.length).flatMap (fun j => (callAt f pen text j).calls)⟩ := by
  intro text
  induction text with
  | nil => intro pen _; simp [AddTextLoop, penAfter]
  | cons c cs ih =>
    intro pen h
    have h0 : (f pen c).ok = true := by
      have := h 0 (by simp)
      rwa [callAt_zero] at this
    have hrest : ∀ k, k < cs.length → (callAt f (f pen c).pen cs k).ok = true := by
      intro k hk
      have := h (k + 1) (by simpa using hk)
      rwa [callAt_succ] at this
    rw [AddTextLoop]
    simp only [h0, if_true]
    rw [ih _ hrest]
    simp [penAfter, List.range_succ_eq_map, List.flatMap_map, callAt_zero, callAt_succ]

theorem AddChar_ok (tb : TextBufferImpl) (pen : pen_s) (markup : markup_s) (ch : ℕ) :
    (AddChar tb pen markup ch).ok = true := by
  unfold AddChar
  split_ifs
  · rfl
  · rfl
  · cases markup.font.LoadGlyph ch <;> rfl

theorem AddTextWith_eq (f : pen_s → ℕ → CharResult) (tb : TextBufferImpl) (pen : pen_s)
    (text : List ℕ) :
    AddTextWith f tb pen text =
      ⟨(AddTextLoop f pen text).ok, (AddTextLoop f pen text).pen,
       [GLCall.BindFramebuffer tb.m_FrameBuffer, GLCall.Enable_BLEND, GLCall.BlendFunc_ONE_ONE]
       ++ (AddTextLoop f pen text).calls ++ [GLCall.BindFramebuffer 0]⟩ := rfl

/-! ## Claims on the pen/layout driver -/

theorem jitterLoop_calls (vp : viewport_s) (pen : pen_s) (markup : markup_s) (glyph : Glyph) :
    (jitterLoop vp pen markup glyph).2 =
      [GLCall.GetUniformLocation,
       GLCall.UniformMatrix4fv (transform_x vp pen markup ⟨-1 / 12, -5 / 12⟩),
       GLCall.Uniform4fv ⟨1, 0, 0, 0⟩, GLCall.DrawArrays (glyph.GetSize / 4 / 4),
       GLCall.GetUniformLocation,
       GLCall.UniformMatrix4fv (transform_x vp pen markup ⟨1 / 12, 1 / 12⟩),
       GLCall.Uniform4fv ⟨1, 0, 0, 0⟩, GLCall.DrawArrays (glyph.GetSize / 4 / 4),
       GLCall.GetUniformLocation,
       GLCall.UniformMatrix4fv (transform_x vp pen markup ⟨3 / 12, -1 / 12⟩),
       GLCall.Uniform4fv ⟨0, 1, 0, 0⟩, GLCall.DrawArrays (glyph.GetSize / 4 / 4),
       GLCall.GetUniformLocation,
       GLCall.UniformMatrix4fv (transform_x vp pen markup ⟨5 / 12, 5 / 12⟩),
       GLCall.Uniform4fv ⟨0, 1, 0, 0⟩, GLCall.DrawArrays (glyph.GetSize / 4 / 4),
       GLCall.GetUniformLocation,
       GLCall.UniformMatrix4fv (transform_x vp pen markup ⟨7 / 12, -3 / 12⟩),
       GLCall.Uniform4fv ⟨0, 0, 1, 0⟩, GLCall.DrawArrays (glyph.GetSize / 4 / 4),
       GLCall.GetUniformLocation,
       GLCall.UniformMatrix4fv (transform_x vp pen markup ⟨9 / 12, 3 / 12⟩),
       GLCall.Uniform4fv ⟨0, 0, 1, 0⟩, GLCall.DrawArrays (glyph.GetSize / 4 / 4)] := by
  simp [jitterLoop, JITTER_PATTERN, List.enum, List.enumFrom, jitterIteration, sampleColor]

theorem AddChar_glyph (tb : TextBufferImpl) (pen : pen_s) (markup : markup_s) (ch : ℕ)
    (glyph : Glyph) (hsp : ch ≠ 32) (hnl : ch ≠ 10)
    (hg : markup.font.LoadGlyph ch = some glyph) :
    AddChar tb pen markup ch =
      ⟨true, ⟨pen.x + glyph.GetAdvanceX, pen.y⟩,
       [GLCall.shader_load, GLCall.LoadGlyph ch true,
        GLCall.GenBuffers, GLCall.BindBuffer,
        GLCall.BufferData glyph.GetSize glyph.GetAddr,
        GLCall.UseProgram true,
        GLCall.GetAttribLocation, GLCall.EnableVertexAttribArray,
        GLCall.BindBuffer, GLCall.VertexAttribPointer,
        GLCall.GetUniformLocation]
       ++ (jitterLoop tb.m_Viewport pen markup glyph).2
       ++ [GLCall.DisableVertexAttribArray, GLCall.UseProgram false]⟩ := by
  unfold AddChar
  rw [if_neg hsp, if_neg hnl, hg]

theorem AddChar_glyph_matrices (tb : TextBufferImpl) (pen : pen_s) (markup : markup_s) (ch : ℕ)
    (glyph : Glyph) (hsp : ch ≠ 32) (hnl : ch ≠ 10)
    (hg : markup.font.LoadGlyph ch = some glyph) :
    uniformMatrices (AddChar tb pen markup ch).calls
      = JITTER_PATTERN.map (transform_x tb.m_Viewport pen markup) := by
  rw [AddChar_glyph tb pen markup ch glyph hsp hnl hg, jitterLoop_calls]
  simp [uniformMatrices, JITTER_PATTERN]

theorem AddChar_glyph_drawCount (tb : TextBufferImpl) (pen : pen_s) (markup : markup_s) (ch : ℕ)
    (glyph : Glyph) (hsp : ch ≠ 32) (hnl : ch ≠ 10)
    (hg : markup.font.LoadGlyph ch = some glyph) :
    drawCount (AddChar tb pen markup ch).calls = 6 := by
  rw [AddChar_glyph tb pen markup ch glyph hsp hnl hg, jitterLoop_calls]
  simp [drawCount, isDraw]

/-- C7 (glyph advance): for a character other than blank and newline whose
glyph is present, `AddChar` answers `true`, submits exactly six draws, one per
entry of `JITTER_PATTERN` (the matrices sent are the `transform_x` of the six
entries, in order) with no `glClear` anywhere in the call, leaves `pen.y`
unchanged and sets `pen.x` to its old value plus the glyph's `GetAdvanceX()`. -/
theorem C7_glyph_advance (tb : TextBufferImpl) (pen : pen_s) (markup : markup_s) (ch : ℕ)
    (glyph : Glyph) (hsp : ch ≠ 32) (hnl : ch ≠ 10)
    (hg : markup.font.LoadGlyph ch = some glyph) :
    (AddChar tb pen markup ch).ok = true ∧
    drawCount (AddChar tb pen markup ch).calls = 6 ∧
    uniformMatrices (AddChar tb pen markup ch).calls
      = JITTER_PATTERN.map (transform_x tb.m_Viewport pen markup) ∧
    clearCount (AddChar tb pen markup ch).calls = 0 ∧
    (AddChar tb pen markup ch).pen.y = pen.y ∧
    (AddChar tb pen markup ch).pen.x = pen.x + glyph.GetAdvanceX := by
  rw [AddChar_glyph tb pen markup ch glyph hsp hnl hg, jitterLoop_calls]
  refine ⟨rfl, ?_, ?_, ?_, rfl, rfl⟩
  · simp [drawCount, isDraw]
  · simp [uniformMatrices, JITTER_PATTERN]
  · simp [clearCount, isClear]


/-- C7 on the code 65 with `demoFont`: six draws and the pen goes from
`(5, 5)` to `(12, 5)`. -/
theorem C7_glyph_advance_witness :
    (AddChar ⟨2, 1, demoViewport⟩ ⟨5, 5⟩ demoMarkup 65).ok = true ∧
    drawCount (AddChar ⟨2, 1, demoViewport⟩ ⟨5, 5⟩ demoMarkup 65).calls = 6 ∧
    (AddChar ⟨2, 1, demoViewport⟩ ⟨5, 5⟩ demoMarkup 65).pen.y = 5 ∧
    (AddChar ⟨2, 1, demoViewport⟩ ⟨5, 5⟩ demoMarkup 65).pen.x = 12 := by
  have h := C7_glyph_advance ⟨2, 1, demoViewport⟩ ⟨5, 5⟩ demoMarkup 65 demoGlyph
    (by decide) (by decide) (by simp [demoMarkup, demoFont])
  refine ⟨h.1, h.2.1, h.2.2.2.2.1, ?_⟩
  rw [h.2.2.2.2.2]
  norm_num [demoGlyph]

/-- C5 (newline reset): on a viewport with non-zero `dpi_height` and
`pixel_height` the divisor `pt_height` is non-zero, and `AddChar` on newline
answers `true`, issues no call at all (so no draw), sets `pen.x = 0` and
lowers `pen.y` by exactly
`(ascender - descender) * window_height * ptSize / (pixel_height * 72 / dpi_height)`. -/
theorem C5_newline_reset (tb : TextBufferImpl) (pen : pen_s) (markup : markup_s)
    (hdpi : tb.m_Viewport.dpi_height ≠ 0) (hpix : tb.m_Viewport.pixel_height ≠ 0) :
    pt_height tb.m_Viewport ≠ 0 ∧
    (AddChar tb pen markup 10).ok = true ∧
    (AddChar tb pen markup 10).calls = [] ∧
    drawCount (AddChar tb pen markup 10).calls = 0 ∧
    (AddChar tb pen markup 10).pen.x = 0 ∧
    (AddChar tb pen markup 10).pen.y =
      pen.y - (markup.font.GetAscender - markup.font.GetDescender)
                * tb.m_Viewport.window_height * markup.font.GetPtSize
                / (tb.m_Viewport.pixel_height * 72 / tb.m_Viewport.dpi_height) := by
  refine ⟨?_, ?_, ?_, ?_, ?_, ?_⟩
  · unfold pt_height
    exact div_ne_zero (mul_ne_zero hpix (by norm_num)) hdpi
  all_goals simp [AddChar, pt_height, drawCount]

/-- C5 on `demoViewport` with `demoFont`: the pen goes from `(5, 5)` to
`(0, -195)`. -/
theorem C5_newline_reset_witness :
    (AddChar ⟨2, 1, demoViewport⟩ ⟨5, 5⟩ demoMarkup 10).pen.x = 0 ∧
    (AddChar ⟨2, 1, demoViewport⟩ ⟨5, 5⟩ demoMarkup 10).pen.y = -195 ∧
    drawCount (AddChar ⟨2, 1, demoViewport⟩ ⟨5, 5⟩ demoMarkup 10).calls = 0 := by
  have h := C5_newline_reset ⟨2, 1, demoViewport⟩ ⟨5, 5⟩ demoMarkup
    (by norm_num [demoViewport]) (by norm_num [demoViewport])
  refine ⟨h.2.2.2.2.1, ?_, h.2.2.2.1⟩
  rw [h.2.2.2.2.2]
  norm_num [demoMarkup, demoFont, demoViewport]

theorem AddText_cons (tb : TextBufferImpl) (pen : pen_s) (markup : markup_s) (ch : ℕ)
    (rest : List ℕ) :
    AddTextLoop (fun p c => AddChar tb p markup c) pen (ch :: rest) =
      ⟨(AddTextLoop (fun p c => AddChar tb p markup c) (AddChar tb pen markup ch).pen rest).ok,
       (AddTextLoop (fun p c => AddChar tb p markup c) (AddChar tb pen markup ch).pen rest).pen,
       (AddChar tb pen markup ch).calls ++
       (AddTextLoop (fun p c => AddChar tb p markup c)
          (AddChar tb pen markup ch).pen rest).calls⟩ := by
  rw [AddTextLoop]
  simp [AddChar_ok]

/-- C9 (channel seeding): for a character whose glyph is drawn, the colour
uniform in effect at the draw of sample `i` is the unit vector of channel
`i / 2` with alpha 0, that is `(1,0,0,0)` for `i = 0, 1`, `(0,1,0,0)` for
`i = 2, 3` and `(0,0,1,0)` for `i = 4, 5`; each of the channels R, G, B is
the colour of exactly two of the six draws. -/
theorem C9_channel_seeding (tb : TextBufferImpl) (pen : pen_s) (markup : markup_s) (ch : ℕ)
    (glyph : Glyph) (hsp : ch ≠ 32) (hnl : ch ≠ 10)
    (hg : markup.font.LoadGlyph ch = some glyph) :
    drawColors ⟨0, 0, 0, 0⟩ (AddChar tb pen markup ch).calls
      = [⟨1, 0, 0, 0⟩, ⟨1, 0, 0, 0⟩, ⟨0, 1, 0, 0⟩, ⟨0, 1, 0, 0⟩, ⟨0, 0, 1, 0⟩, ⟨0, 0, 1, 0⟩] ∧
    (∀ i, i < 6 →
      (drawColors ⟨0, 0, 0, 0⟩ (AddChar tb pen markup ch).calls)[i]?
        = some (unitChannel (i / 2))) ∧
    (∀ k, k < 3 →
      ((drawColors ⟨0, 0, 0, 0⟩ (AddChar tb pen markup ch).calls).filter
        (fun c => decide (c = unitChannel k))).length = 2) := by
  have hlist : drawColors ⟨0, 0, 0, 0⟩ (AddChar tb pen markup ch).calls
      = [⟨1, 0, 0, 0⟩, ⟨1, 0, 0, 0⟩, ⟨0, 1, 0, 0⟩, ⟨0, 1, 0, 0⟩, ⟨0, 0, 1, 0⟩,
          ⟨0, 0, 1, 0⟩] := by
    rw [AddChar_glyph tb pen markup ch glyph hsp hnl hg, jitterLoop_calls]
    simp [drawColors]
  refine ⟨hlist, ?_, ?_⟩
  · intro i hi
    rw [hlist]
    interval_cases i <;> simp [unitChannel]
  · intro k hk
    rw [hlist]
    interval_cases k <;> simp [unitChannel, List.filter]

/-- C9 on the code 65 with `demoFont`: the colours at the six draws. -/
theorem C9_channel_seeding_witness :
    drawColors ⟨0, 0, 0, 0⟩ (AddChar ⟨2, 1, demoViewport⟩ ⟨5, 5⟩ demoMarkup 65).calls
      = [⟨1, 0, 0, 0⟩, ⟨1, 0, 0, 0⟩, ⟨0, 1, 0, 0⟩, ⟨0, 1, 0, 0⟩, ⟨0, 0, 1, 0⟩, ⟨0, 0, 1, 0⟩] :=
  (C9_channel_seeding ⟨2, 1, demoViewport⟩ ⟨5, 5⟩ demoMarkup 65 demoGlyph
    (by decide) (by decide) (by simp [demoMarkup, demoFont])).1

/-- C4 refuted as stated: after an `Init` whose framebuffer status was
incomplete, `AddText` on the single code 65 answers `true`, submits six draws
and moves the pen from `(5, 5)` to `(12, 5)`. -/
theorem C4_incomplete_target_counterexample :
    (AddText (Init demoViewport 1 2 false).1 ⟨5, 5⟩ demoMarkup [65]).ok = true ∧
    drawCount (AddText (Init demoViewport 1 2 false).1 ⟨5, 5⟩ demoMarkup [65]).calls = 6 ∧
    (AddText (Init demoViewport 1 2 false).1 ⟨5, 5⟩ demoMarkup [65]).pen = ⟨12, 5⟩ ∧
    (AddText (Init demoViewport 1 2 false).1 ⟨5, 5⟩ demoMarkup [65]).pen ≠ ⟨5, 5⟩ := by
  have hA : demoMarkup.font.LoadGlyph 65 = some demoGlyph := by simp [demoMarkup, demoFont]
  have hrun : AddText (Init demoViewport 1 2 false).1 ⟨5, 5⟩ demoMarkup [65] =
      ⟨true, ⟨5 + demoGlyph.GetAdvanceX, 5⟩,
        [GLCall.BindFramebuffer 1, GLCall.Enable_BLEND, GLCall.BlendFunc_ONE_ONE]
        ++ (AddChar (Init demoViewport 1 2 false).1 ⟨5, 5⟩ demoMarkup 65).calls
        ++ [GLCall.BindFramebuffer 0]⟩ := by
    unfold AddText
    rw [AddTextWith_eq, AddText_cons,
      AddChar_glyph _ ⟨5, 5⟩ demoMarkup 65 demoGlyph (by decide) (by decide) hA]
    simp [AddTextLoop, Init]
  have hdraw := (AddChar_glyph_drawCount (Init demoViewport 1 2 false).1 ⟨5, 5⟩ demoMarkup 65
    demoGlyph (by decide) (by decide) hA)
  rw [hrun]
  refine ⟨rfl, ?_, ?_, ?_⟩
  · simpa [drawCount, List.filter_append, isDraw] using hdraw
  · norm_num [demoGlyph]
  · norm_num [demoGlyph]

/-- C4 (amended): when the framebuffer status is incomplete, `Init` logs the
error and returns, skipping the initial clear, and keeps no record of the
failure: the buffer is the same as after a complete status, so a subsequent
`AddText` behaves exactly as after a successful `Init`; it processes the text
and answers `true`. -/
theorem C4_incomplete_target_amended (viewport : viewport_s) (fb tex : ℕ) (pen : pen_s)
    (markup : markup_s) (text : List ℕ) :
    (Init viewport fb tex false).2.getLast? = some GLCall.printf_frame_buffer_status_error ∧
    clearCount (Init viewport fb tex false).2 = 0 ∧
    clearCount (Init viewport fb tex true).2 = 1 ∧
    (Init viewport fb tex false).1 = (Init viewport fb tex true).1 ∧
    AddText (Init viewport fb tex false).1 pen markup text
      = AddText (Init viewport fb tex true).1 pen markup text ∧
    (AddText (Init viewport fb tex false).1 pen markup text).ok = true ∧
    (AddText (Init viewport fb tex false).1 pen markup text).pen
      = penAfter (fun p ch => AddChar (Init viewport fb tex false).1 p markup ch) pen text := by
  have hall : ∀ k, k < text.length →
      (callAt (fun p ch => AddChar (Init viewport fb tex false).1 p markup ch) pen text k).ok
        = true := by
    intro k _
    exact AddChar_ok _ _ markup _
  refine ⟨by simp [Init], by simp [Init, clearCount, isClear], by simp [Init, clearCount, isClear],
    by simp [Init], by simp [Init], ?_, ?_⟩
  · unfold AddText
    rw [AddTextWith_eq, AddTextLoop_all_ok _ text pen hall]
  · unfold AddText
    rw [AddTextWith_eq, AddTextLoop_all_ok _ text pen hall]


theorem translate3_eq (vp : viewport_s) (j : vec2) (hdpi : vp.dpi ≠ 0)
    (hdpih : vp.dpi_height ≠ 0) (hpw : vp.pixel_width ≠ 0) (hph : vp.pixel_height ≠ 0) :
    translate3 vp j = glm.translate (j.x / vp.pixel_width) (j.y / vp.pixel_height) 0 := by
  unfold translate3 pt_width pt_height
  have hx : j.x * 72 / vp.dpi / (vp.pixel_width * 72 / vp.dpi) = j.x / vp.pixel_width := by
    field_simp
    ring
  have hy : j.y * 72 / vp.dpi_height / (vp.pixel_height * 72 / vp.dpi_height)
      = j.y / vp.pixel_height := by
    field_simp
    ring
  rw [hx, hy]

theorem gl_Position_jitterOutermost (vp : viewport_s) (pen : pen_s) (markup : markup_s)
    (tx ty x y : ℚ) :
    gl_Position (glm.translate tx ty 0 * translate2 vp pen * translate * scale vp markup
        * translate1 markup) x y
      = ![markup.font.GetPtSize / pt_width vp * x + (2 * pen.x / vp.window_width - 1) + tx,
          markup.font.GetPtSize / pt_height vp * (y + markup.font.GetDescender)
            + (2 * pen.y / vp.window_height - 1) + ty,
          0, 1] := by
  funext i
  fin_cases i <;>
    simp [gl_Position, Matrix.mulVec, Matrix.dotProduct, Matrix.mul_apply, Fin.sum_univ_four,
      glm.translate, glm.scale, translate, translate1, translate2, scale] <;> ring


/-- C10 refuted as stated: on `demoViewport` (scale factor `36 / 72`), pen
`(5, 5)` and sample 0, the matrix sent to the shader maps the glyph point
`(1, 1)` to `x = -1733/4320`. The composition in the claimed order, with the
jitter translation innermost, maps it to `x = -3461/8640`, and the same five
factors read in the opposite order map it to `x = 211/4320`, whichever sign
the descender translation is given; so the matrix sent is none of these. -/
theorem C10_model_transform_counterexample :
    gl_Position ((uniformMatrices
        (AddChar ⟨2, 1, demoViewport⟩ ⟨5, 5⟩ demoMarkup 65).calls).getD 0 0) 1 1 0
      = -1733 / 4320 ∧
    gl_Position (jitterInnermost demoViewport ⟨5, 5⟩ demoMarkup
        (-demoMarkup.font.GetDescender) (JITTER_PATTERN.getD 0 ⟨0, 0⟩)) 1 1 0
      = -3461 / 8640 ∧
    gl_Position (jitterInnermost demoViewport ⟨5, 5⟩ demoMarkup
        demoMarkup.font.GetDescender (JITTER_PATTERN.getD 0 ⟨0, 0⟩)) 1 1 0
      = -3461 / 8640 ∧
    gl_Position (penInnermost demoViewport ⟨5, 5⟩ demoMarkup
        (-demoMarkup.font.GetDescender) (JITTER_PATTERN.getD 0 ⟨0, 0⟩)) 1 1 0
      = 211 / 4320 ∧
    gl_Position (penInnermost demoViewport ⟨5, 5⟩ demoMarkup
        demoMarkup.font.GetDescender (JITTER_PATTERN.getD 0 ⟨0, 0⟩)) 1 1 0
      = 211 / 4320 ∧
    (uniformMatrices (AddChar ⟨2, 1, demoViewport⟩ ⟨5, 5⟩ demoMarkup 65).calls).getD 0 0
      ≠ jitterInnermost demoViewport ⟨5, 5⟩ demoMarkup
          (-demoMarkup.font.GetDescender) (JITTER_PATTERN.getD 0 ⟨0, 0⟩) ∧
    (uniformMatrices (AddChar ⟨2, 1, demoViewport⟩ ⟨5, 5⟩ demoMarkup 65).calls).getD 0 0
      ≠ jitterInnermost demoViewport ⟨5, 5⟩ demoMarkup
          demoMarkup.font.GetDescender (JITTER_PATTERN.getD 0 ⟨0, 0⟩) ∧
    (uniformMatrices (AddChar ⟨2, 1, demoViewport⟩ ⟨5, 5⟩ demoMarkup 65).calls).getD 0 0
      ≠ penInnermost demoViewport ⟨5, 5⟩ demoMarkup
          (-demoMarkup.font.GetDescender) (JITTER_PATTERN.getD 0 ⟨0, 0⟩) ∧
    (uniformMatrices (AddChar ⟨2, 1, demoViewport⟩ ⟨5, 5⟩ demoMarkup 65).calls).getD 0 0
      ≠ penInnermost demoViewport ⟨5, 5⟩ demoMarkup
          demoMarkup.font.GetDescender (JITTER_PATTERN.getD 0 ⟨0, 0⟩) := by
  have hA : demoMarkup.font.LoadGlyph 65 = some demoGlyph := by simp [demoMarkup, demoFont]
  have hm : (uniformMatrices (AddChar ⟨2, 1, demoViewport⟩ ⟨5, 5⟩ demoMarkup 65).calls).getD 0 0
      = transform_x demoViewport ⟨5, 5⟩ demoMarkup ⟨-1 / 12, -5 / 12⟩ := by
    rw [AddChar_glyph _ ⟨5, 5⟩ demoMarkup 65 demoGlyph (by decide) (by decide) hA,
      jitterLoop_calls]
    simp [uniformMatrices]
  have h1 : gl_Position (transform_x demoViewport ⟨5, 5⟩ demoMarkup ⟨-1 / 12, -5 / 12⟩) 1 1 0
      = -1733 / 4320 := by
    simp [gl_Position, Matrix.mulVec, Matrix.dotProduct, Matrix.mul_apply, Fin.sum_univ_four,
      transform_x, transform, translate3, glm.translate, glm.scale, translate, translate1,
      translate2, scale, pt_width, pt_height, demoViewport, demoMarkup, demoFont]
    norm_num
  have h2 : ∀ d : ℚ, gl_Position (jitterInnermost demoViewport ⟨5, 5⟩ demoMarkup d
        (JITTER_PATTERN.getD 0 ⟨0, 0⟩)) 1 1 0 = -3461 / 8640 := by
    intro d
    simp [gl_Position, Matrix.mulVec, Matrix.dotProduct, Matrix.mul_apply, Fin.sum_univ_four,
      jitterInnermost, translate3, glm.translate, glm.scale, translate,
      translate2, scale, pt_width, pt_height, demoViewport, demoMarkup, demoFont,
      JITTER_PATTERN]
    norm_num
  have h3 : ∀ d : ℚ, gl_Position (penInnermost demoViewport ⟨5, 5⟩ demoMarkup d
        (JITTER_PATTERN.getD 0 ⟨0, 0⟩)) 1 1 0 = 211 / 4320 := by
    intro d
    simp [gl_Position, Matrix.mulVec, Matrix.dotProduct, Matrix.mul_apply, Fin.sum_univ_four,
      penInnermost, translate3, glm.translate, glm.scale, translate,
      translate2, scale, pt_width, pt_height, demoViewport, demoMarkup, demoFont,
      JITTER_PATTERN]
    norm_num
  have hne2 : ∀ d : ℚ, transform_x demoViewport ⟨5, 5⟩ demoMarkup ⟨-1 / 12, -5 / 12⟩
      ≠ jitterInnermost demoViewport ⟨5, 5⟩ demoMarkup d (JITTER_PATTERN.getD 0 ⟨0, 0⟩) := by
    intro d heq
    have h := h1
    rw [heq, h2 d] at h
    norm_num at h
  have hne3 : ∀ d : ℚ, transform_x demoViewport ⟨5, 5⟩ demoMarkup ⟨-1 / 12, -5 / 12⟩
      ≠ penInnermost demoViewport ⟨5, 5⟩ demoMarkup d (JITTER_PATTERN.getD 0 ⟨0, 0⟩) := by
    intro d heq
    have h := h1
    rw [heq, h3 d] at h
    norm_num at h
  rw [hm]
  exact ⟨h1, h2 _, h2 _, h3 _, h3 _, hne2 _, hne2 _, hne3 _, hne3 _⟩

/-- C10 (amended): on a viewport with non-zero `dpi`, `dpi_height`,
`pixel_width` and `pixel_height`, the matrix sent to the encode shader for the
sample with jitter offset `j = JITTER_PATTERN[i]` is
`jitterTranslate(j) ∘ translate(pen) ∘ baseTranslate(-1,-1) ∘
scale(ptSize/pt_width, ptSize/pt_height) ∘ translate(0, descender)`: the
jitter translation is applied last, after the scale, and as a translation by
`(j.x / pixel_width, j.y / pixel_height)` it involves neither dpi nor the
point size. A glyph point `(x, y)` is sent to
`(ptSize/pt_width * x + 2 pen.x / window_width - 1 + j.x / pixel_width,
  ptSize/pt_height * (y + descender) + 2 pen.y / window_height - 1
  + j.y / pixel_height)`. -/
theorem C10_model_transform_amended (tb : TextBufferImpl) (pen : pen_s) (markup : markup_s)
    (ch : ℕ) (glyph : Glyph)
    (hdpi : tb.m_Viewport.dpi ≠ 0) (hdpih : tb.m_Viewport.dpi_height ≠ 0)
    (hpw : tb.m_Viewport.pixel_width ≠ 0) (hph : tb.m_Viewport.pixel_height ≠ 0)
    (hsp : ch ≠ 32) (hnl : ch ≠ 10) (hg : markup.font.LoadGlyph ch = some glyph) :
    uniformMatrices (AddChar tb pen markup ch).calls
      = JITTER_PATTERN.map (fun j =>
          glm.translate (j.x / tb.m_Viewport.pixel_width) (j.y / tb.m_Viewport.pixel_height) 0
            * translate2 tb.m_Viewport pen * translate * scale tb.m_Viewport markup
            * translate1 markup) ∧
    (∀ (j : vec2) (x y : ℚ),
      gl_Position
          (glm.translate (j.x / tb.m_Viewport.pixel_width) (j.y / tb.m_Viewport.pixel_height) 0
            * translate2 tb.m_Viewport pen * translate * scale tb.m_Viewport markup
            * translate1 markup) x y
        = ![markup.font.GetPtSize / pt_width tb.m_Viewport * x
              + (2 * pen.x / tb.m_Viewport.window_width - 1) + j.x / tb.m_Viewport.pixel_width,
            markup.font.GetPtSize / pt_height tb.m_Viewport * (y + markup.font.GetDescender)
              + (2 * pen.y / tb.m_Viewport.window_height - 1)
              + j.y / tb.m_Viewport.pixel_height,
            0, 1]) := by
  have hm : ∀ j : vec2, transform_x tb.m_Viewport pen markup j
      = glm.translate (j.x / tb.m_Viewport.pixel_width) (j.y / tb.m_Viewport.pixel_height) 0
          * translate2 tb.m_Viewport pen * translate * scale tb.m_Viewport markup
          * translate1 markup := by
    intro j
    unfold transform_x transform
    rw [translate3_eq tb.m_Viewport j hdpi hdpih hpw hph]
    simp only [Matrix.mul_assoc]
  refine ⟨?_, ?_⟩
  · rw [AddChar_glyph_matrices tb pen markup ch glyph hsp hnl hg]
    exact List.map_congr_left (fun j _ => hm j)
  · intro j x y
    exact gl_Position_jitterOutermost tb.m_Viewport pen markup _ _ x y

/-- C10 (amended) on `demoViewport`, pen `(5, 5)`, `demoFont` and code 65: the
six matrices sent are the jitter translations by `pattern[i] / 72` composed
after the pen, base, scale and descender transforms, and the first of them
maps the glyph point `(1, 1)` to `(-1733/4320, -3913/4320)`. -/
theorem C10_model_transform_amended_witness :
    uniformMatrices (AddChar ⟨2, 1, demoViewport⟩ ⟨5, 5⟩ demoMarkup 65).calls
      = JITTER_PATTERN.map (fun j =>
          glm.translate (j.x / demoViewport.pixel_width) (j.y / demoViewport.pixel_height) 0
            * translate2 demoViewport ⟨5, 5⟩ * translate * scale demoViewport demoMarkup
            * translate1 demoMarkup) ∧
    gl_Position
        (glm.translate ((-1 / 12 : ℚ) / demoViewport.pixel_width)
            ((-5 / 12 : ℚ) / demoViewport.pixel_height) 0
          * translate2 demoViewport ⟨5, 5⟩ * translate * scale demoViewport demoMarkup
          * translate1 demoMarkup) 1 1
      = ![-1733 / 4320, -3913 / 4320, 0, 1] := by
  have h := C10_model_transform_amended ⟨2, 1, demoViewport⟩ ⟨5, 5⟩ demoMarkup 65 demoGlyph
    (by norm_num [demoViewport]) (by norm_num [demoViewport]) (by norm_num [demoViewport])
    (by norm_num [demoViewport]) (by decide) (by decide) (by simp [demoMarkup, demoFont])
  refine ⟨h.1, ?_⟩
  have h2 := h.2 ⟨-1 / 12, -5 / 12⟩ 1 1
  rw [h2]
  norm_num [pt_width, pt_height, demoViewport, demoMarkup, demoFont]

end ftdgl
